import Mathlib

/-!
Verification of the discovery-session logic of the `unknown` music-discovery
app, as implemented in the `DiscoverScreen` component
(`src/unnamed/part_003`, with the sibling variant `src/app/(tabs)/index.tsx`).

The embedding models:
* the data model (`Track`, `UserPreferences`, rating and stats rows),
* the candidate-track query built by `loadNextTrack` (primary preference
  query and fallback query) as executable filters over a list-of-rows
  database,
* the discover-session screen state and its handlers
  (`progress-monitor effect`, `submitRating`, `handleContinueListening`,
  `skipTrack`, `handleNewSession`).

Randomness (`Math.random` index selection) is injected as a `pick : Nat`
parameter, and backend fetch failure as a `fetchOk : Bool` flag, so every
definition is executable and deterministic.
-/


/-- A row of the `tracks` table (fields used by the discovery flow).
`duration` is in seconds; `spotify_streams` is the popularity proxy. -/
structure Track where
  id : String
  title : String
  artist : String
  audio_url : String
  genre : String
  mood : String
  duration : Int
  spotify_streams : Int
  deriving Repr, DecidableEq

/-- The `UserPreferences` interface of `DiscoverScreen`. -/
structure UserPreferences where
  preferred_genres : List String
  preferred_moods : List String
  min_duration : Int
  max_duration : Int
  deriving Repr, DecidableEq

/-- A row of the `user_ratings` table, as inserted by `submitRating`. -/
structure RatingRow where
  track_id : String
  rating : Int
  review_text : Option String
  profile_id : String
  user_id : String
  deriving Repr, DecidableEq

/-- A row of the `user_stats` table, as upserted by `submitRating`
(the `updated_at` timestamp column is not modelled). -/
structure StatsRow where
  profile_id : String
  user_id : String
  total_tracks_rated : Int
  deriving Repr, DecidableEq

/-- The backend database reached through the query API. -/
structure DB where
  tracks : List Track
  user_ratings : List RatingRow
  user_stats : List StatsRow
  deriving Repr, DecidableEq

/-- The function modelling the `user_ratings` select: the `user_ratings.select.(track_id).eq(profile_id, uid)`
query of `loadNextTrack`, followed by `ratedTrackIds.map(r => r.track_id)`. -/
def ratedTrackIds (rows : List RatingRow) (uid : String) : List String :=
  (rows.filter (fun r => r.profile_id == uid)).map (fun r => r.track_id)

/-- The underground popularity ceiling: `.lt(spotify_streams, 5000)`. -/
def undergroundCeiling : Int := 5000

/-- The row filter of the preference-constrained primary query of
`loadNextTrack`, mirroring the query building line by line:
`lt(spotify_streams, 5000)`, then `not(id, in, excludeIds)` when
`excludeIds.length > 0`, then `eq(mood, sessionMood)` when a session mood is
set, then, when preferences exist and no session mood is set,
`in(genre, preferred_genres)` / `in(mood, preferred_moods)` (each only when
non-empty) and `gte/lte(duration, ...)`. -/
def primaryPred (excludeIds : List String) (sessionMood : Option String)
    (userPreferences : Option UserPreferences) (t : Track) : Bool :=
  let q0 := t.spotify_streams < undergroundCeiling
  let q1 := q0 && (if excludeIds.length > 0 then !(excludeIds.contains t.id) else true)
  let q2 := q1 && (match sessionMood with
    | some m => t.mood == m
    | none => true)
  match userPreferences, sessionMood with
  | some p, none =>
      let qg := if p.preferred_genres.length > 0 then p.preferred_genres.contains t.genre else true
      let qm := if p.preferred_moods.length > 0 then p.preferred_moods.contains t.mood else true
      q2 && qg && qm && decide (p.min_duration ≤ t.duration) && decide (t.duration ≤ p.max_duration)
  | _, _ => q2

/-- The query page bound: `.limit(50)`. -/
def queryLimit : Nat := 50

/-- The candidate rows returned by the primary query (`query.limit(50)`). -/
def primaryCandidates (tracks : List Track) (excludeIds : List String)
    (sessionMood : Option String) (userPreferences : Option UserPreferences) : List Track :=
  (tracks.filter (primaryPred excludeIds sessionMood userPreferences)).take queryLimit

/-- The row filter of the fallback query of `loadNextTrack`:
`lt(spotify_streams, 5000)` and `not(id, in, excludeIds)` (applied with the
empty literal `()` when there are no excluded ids, which excludes nothing). -/
def fallbackPred (excludeIds : List String) (t : Track) : Bool :=
  decide (t.spotify_streams < undergroundCeiling) && !(excludeIds.contains t.id)

/-- The candidate rows returned by the fallback query (`.limit(50)`). -/
def fallbackCandidates (tracks : List Track) (excludeIds : List String) : List Track :=
  (tracks.filter (fallbackPred excludeIds)).take queryLimit

/-- The user-preference bundle of the C8 scenario. -/
def prefsJazzChill : UserPreferences :=
  { preferred_genres := ["Jazz"], preferred_moods := ["Chill"]
    min_duration := 60, max_duration := 300 }

/-! ## Screen state of `DiscoverScreen` (src/unnamed/part_003) -/

/-- The `DiscoverState` union type of `DiscoverScreen`. -/
inductive DiscoverState
  | mood_selection
  | loading
  | playing
  | rating
  | revealed
  | transitioning
  | full_listening
  deriving Repr, DecidableEq

/-- The `useState` fields of `DiscoverScreen` relevant to the discovery flow.
`position` and `duration` are playback milliseconds (rationals so the
progress ratio `position / duration` is exact); `ratingThreshold` is the
`useState(0.01)` constant; `soundLoaded` abstracts the `sound` handle to
whether a sound object is currently held. -/
structure Screen where
  state : DiscoverState
  currentTrack : Option Track
  selectedSessionMood : Option String
  rating : Int
  review : String
  showRating : Bool
  trackRevealed : Bool
  isLoading : Bool
  error : Option String
  soundLoaded : Bool
  isPlaying : Bool
  position : ℚ
  duration : ℚ
  showWelcomeTip : Bool
  showThankYou : Bool
  ratingThreshold : ℚ
  canSkip : Bool
  deriving Repr, DecidableEq

/-- The configured rating-trigger threshold (`useState(0.01)` in
src/unnamed/part_003; the src/app/(tabs)/index.tsx variant uses `0.8`). -/
def ratingThresholdValue : ℚ := 1 / 100

/-- The progress-monitor `useEffect` of `DiscoverScreen`: when
`duration > 0 && position > 0 && state === 'playing'` and
`position / duration >= ratingThreshold`, it sets the state to `rating` and
shows the rating interface; otherwise it leaves the screen unchanged. -/
def progressEffect (s : Screen) : Screen :=
  if 0 < s.duration ∧ 0 < s.position ∧ s.state = DiscoverState.playing then
    if s.ratingThreshold ≤ s.position / s.duration then
      { s with state := DiscoverState.rating, showRating := true }
    else s
  else s

/-- The screen enters the rating state under the progress effect. -/
def entersRating (s : Screen) : Prop :=
  s.state ≠ DiscoverState.rating ∧ (progressEffect s).state = DiscoverState.rating

/-- One `onPlaybackStatusUpdate` progress tick followed by the
progress-monitor effect: the tick stores the reported position and duration,
then the effect runs on the updated screen. -/
def applyProgress (s : Screen) (e : ℚ × ℚ) : Screen :=
  progressEffect { s with position := e.1, duration := e.2 }

/-- Number of playing-to-rating entries along a sequence of progress ticks. -/
def ratingEntryCount : Screen → List (ℚ × ℚ) → Nat
  | _, [] => 0
  | s, e :: es =>
    (if s.state ≠ DiscoverState.rating ∧ (applyProgress s e).state = DiscoverState.rating
      then 1 else 0) + ratingEntryCount (applyProgress s e) es

/-- A concrete playing screen 30% into a 10s track. -/
def demoPlayingScreen : Screen :=
  { state := DiscoverState.playing, currentTrack := none
    selectedSessionMood := none, rating := 0, review := ""
    showRating := false, trackRevealed := false, isLoading := false
    error := none, soundLoaded := true, isPlaying := true
    position := 3000, duration := 10000, showWelcomeTip := false
    showThankYou := false, ratingThreshold := ratingThresholdValue
    canSkip := true }

/-! ## `loadNextTrack` (src/unnamed/part_003, lines 152-254) -/

/-- Result of the awaited track-fetching part of `loadNextTrack`:
either a candidate track was picked (primary page if non-empty, else
fallback page), or both pages were empty
(`throw new Error('No more tracks available to discover')`), or a backend
fetch failed (`throw tracksError`). -/
inductive LoadOutcome
  | picked (t : Track)
  | noTracks
  | fetchError
  deriving Repr, DecidableEq

/-- The message set by the `catch` block of `loadNextTrack`, for every
thrown error (fetch failure and exhausted candidates alike). -/
def loadFailMsg : String := "Failed to load track. Please try again."

/-- The setters run by `loadNextTrack` before its first `await`: for a
foreground load, `setIsLoading(true)`, `setError(null)`,
`setState('loading')`; in both modes the current sound is unloaded. -/
def startLoad (scr : Screen) (isBackgroundLoad : Bool) : Screen :=
  let s := if isBackgroundLoad then scr
    else { scr with isLoading := true, error := none, state := DiscoverState.loading }
  { s with soundLoaded := false }

/-- The track-fetching computation of `loadNextTrack`: fetch the rated ids,
run the primary query, fall back when it is empty, and pick the random index
`Math.floor(Math.random() * length)` (injected as `pick % length`). -/
def computeLoad (db : DB) (uid : String) (sessionMood : Option String)
    (prefs : Option UserPreferences) (pick : Nat) (fetchOk : Bool) : LoadOutcome :=
  if fetchOk = false then LoadOutcome.fetchError
  else
    let excludeIds := ratedTrackIds db.user_ratings uid
    let tracks := primaryCandidates db.tracks excludeIds sessionMood prefs
    if h1 : tracks.length = 0 then
      let fb := fallbackCandidates db.tracks excludeIds
      if h2 : fb.length = 0 then LoadOutcome.noTracks
      else LoadOutcome.picked
        (fb.get ⟨pick % fb.length, Nat.mod_lt pick (Nat.pos_of_ne_zero h2)⟩)
    else LoadOutcome.picked
      (tracks.get ⟨pick % tracks.length, Nat.mod_lt pick (Nat.pos_of_ne_zero h1)⟩)

/-- The setters run by `loadNextTrack` after its awaits complete, applied to
whatever the live screen is at that moment: on a picked track,
`setCurrentTrack` and the UI-state reset ending in `setState('playing')`
(plus `setShowThankYou(false)` and `setIsLoading(false)` for foreground
loads); on any thrown error, the `catch` block sets the generic message and
the `finally` block clears `isLoading` for foreground loads. -/
def applyLoadOutcome (scr : Screen) (isBackgroundLoad : Bool) : LoadOutcome → Screen
  | LoadOutcome.picked t =>
      let s : Screen :=
        { scr with
          currentTrack := some t, rating := 0, review := "",
          showRating := false, trackRevealed := false, isPlaying := false,
          position := 0, duration := 0, showWelcomeTip := false,
          canSkip := true, state := DiscoverState.playing }
      if isBackgroundLoad then s
      else { s with showThankYou := false, isLoading := false }
  | LoadOutcome.noTracks =>
      if isBackgroundLoad then { scr with error := some loadFailMsg }
      else { scr with error := some loadFailMsg, isLoading := false }
  | LoadOutcome.fetchError =>
      if isBackgroundLoad then { scr with error := some loadFailMsg }
      else { scr with error := some loadFailMsg, isLoading := false }

/-- The whole of `loadNextTrack`, when no other handler runs between its
start and its completion. -/
def loadNextTrack (scr : Screen) (db : DB) (uid : String) (isBackgroundLoad : Bool)
    (sessionMood : Option String) (prefs : Option UserPreferences)
    (pick : Nat) (fetchOk : Bool) : Screen :=
  applyLoadOutcome (startLoad scr isBackgroundLoad) isBackgroundLoad
    (computeLoad db uid sessionMood prefs pick fetchOk)

/-- The handler `handleNewSession` (src/unnamed/part_003, lines 401-414): reset to mood
selection, clear the session mood and current track, unload the sound and
reset playback. -/
def handleNewSession (scr : Screen) : Screen :=
  { scr with
    state := DiscoverState.mood_selection, selectedSessionMood := none,
    currentTrack := none, soundLoaded := false, isPlaying := false,
    position := 0, duration := 0 }

/-- The handler `handleContinueListening` (src/unnamed/part_003, lines 391-395). -/
def handleContinueListening (scr : Screen) : Screen :=
  { scr with
    state := DiscoverState.full_listening, trackRevealed := false,
    canSkip := true }

/-- The handler `skipTrack` (src/unnamed/part_003, lines 330-336): returns immediately
when `canSkip` is false; otherwise fades out and loads the next foreground
track (the transient `isTransitioning` animation flag is not modelled). The
second component records whether the skip acted. -/
def skipTrack (scr : Screen) (db : DB) (uid : String) (prefs : Option UserPreferences)
    (pick : Nat) (fetchOk : Bool) : Screen × Bool :=
  if scr.canSkip = false then (scr, false)
  else (loadNextTrack scr db uid false scr.selectedSessionMood prefs pick fetchOk, true)

/-- A concrete demo track (genre Rock). -/
def demoTrack : Track :=
  { id := "t9", title := "song", artist := "x", audio_url := "u"
    genre := "Rock", mood := "Dark", duration := 100, spotify_streams := 42 }

/-- A database holding only `demoTrack` and no ratings. -/
def demoDB : DB := { tracks := [demoTrack], user_ratings := [], user_stats := [] }

/-- A database with no tracks at all. -/
def emptyDB : DB := { tracks := [], user_ratings := [], user_stats := [] }

/-- A concrete revealed-state screen. -/
def demoRevealedScreen : Screen :=
  { demoPlayingScreen with
    state := DiscoverState.revealed, trackRevealed := true,
    currentTrack := some demoTrack, canSkip := true }

/-! ## `submitRating` (src/unnamed/part_003, lines 338-389) -/

/-- Modelled from the spec: the `user_ratings` table carries a uniqueness
constraint on the (user, track) pair — "Created exactly once per
(user, track) pair; attempts to re-insert are tolerated as a no-op
(unique-constraint violation swallowed)" — the schema itself being
delegated to the backend and absent from the repository. Inserting a row
whose (profile, track) pair is already present leaves the table unchanged
and reports the Postgres duplicate-key error code `23505`; otherwise the
row is appended and no error is reported. -/
def insertRating (rows : List RatingRow) (r : RatingRow) : List RatingRow × Option String :=
  if rows.any (fun q => q.profile_id == r.profile_id && q.track_id == r.track_id)
  then (rows, some "23505")
  else (rows ++ [r], none)

/-- The guard `error && error.code !== '23505'` of `submitRating`: a
reported insert error is fatal (thrown) unless it is the duplicate-key
code. -/
def insertErrorFatal : Option String → Bool
  | some c => c != "23505"
  | none => false

/-- The `user_stats` upsert of `submitRating`: the written row carries
`total_tracks_rated: 1` with conflict key `user_id`
(upsert-with-conflict-key per the backend query API; the `updated_at`
timestamp is not modelled). On conflict the existing row is replaced by the
new one; otherwise the new row is appended. -/
def upsertStats (rows : List StatsRow) (uid : String) : List StatsRow :=
  if rows.any (fun r => r.user_id == uid)
  then rows.map (fun r =>
    if r.user_id == uid
    then { profile_id := uid, user_id := uid, total_tracks_rated := 1 }
    else r)
  else rows ++ [{ profile_id := uid, user_id := uid, total_tracks_rated := 1 }]

/-- The persisted `total_tracks_rated` of a user, read back by key. -/
def lookupStats (rows : List StatsRow) (uid : String) : Option Int :=
  (rows.find? (fun r => r.user_id == uid)).map (fun r => r.total_tracks_rated)

/-- Whether the best-effort `user_stats` upsert succeeds or fails (its
failure is only logged by the code). -/
inductive StatsOutcome
  | ok
  | failed
  deriving Repr, DecidableEq

/-- Result of a `submitRating` call: the resulting screen, the resulting
database, and whether the user-facing `Alert.alert('Error', ...)` was
shown. -/
structure SubmitResult where
  screen : Screen
  db : DB
  alerted : Bool
  deriving Repr, DecidableEq

/-- The function `showThankYouMessage` together with the `loadNextTrackInBackground` it
starts (src/unnamed/part_003, lines 256-286): show the thank-you overlay
and load the next track in the background with the current session mood
(the 3-second timer that hides the overlay again is not modelled). -/
def showThankYouMessage (scr : Screen) (db : DB) (uid : String)
    (prefs : Option UserPreferences) (pick : Nat) (fetchOk : Bool) : Screen :=
  loadNextTrack { scr with showThankYou := true } db uid true
    scr.selectedSessionMood prefs pick fetchOk

/-- The rating row built by `submitRating` for the current track. -/
def newRatingRow (track : Track) (u : String) (stars : Int)
    (reviewText : Option String) : RatingRow :=
  { track_id := track.id, rating := stars, review_text := reviewText,
    profile_id := u, user_id := u }

/-- The `setRating`/`setReview` draft updates at the top of `submitRating`. -/
def draftScreen (scr : Screen) (stars : Int) (reviewText : Option String) : Screen :=
  { scr with rating := stars, review := reviewText.getD "" }

/-- The `setTrackRevealed(true)`/`setState('revealed')` pair of the
`stars >= 4` branch. -/
def revealScreen (scr : Screen) : Screen :=
  { scr with trackRevealed := true, state := DiscoverState.revealed }

/-- The stats table after the best-effort upsert: updated on success,
untouched on a merely-logged failure. -/
def statsAfter (statsOut : StatsOutcome) (rows : List StatsRow) (u : String) : List StatsRow :=
  match statsOut with
  | StatsOutcome.ok => upsertStats rows u
  | StatsOutcome.failed => rows

/-- The database after the rating insert and the best-effort stats upsert. -/
def dbAfter (db : DB) (track : Track) (u : String) (stars : Int)
    (reviewText : Option String) (statsOut : StatsOutcome) : DB :=
  { tracks := db.tracks,
    user_ratings := (insertRating db.user_ratings (newRatingRow track u stars reviewText)).1,
    user_stats := statsAfter statsOut db.user_stats u }

/-- The body of `submitRating` once a current track and a user id exist:
store the draft rating/review, insert the rating row (a non-duplicate error
is thrown, caught, and alerted), best-effort upsert the stats row, then
either reveal (`stars >= 4`) or show the thank-you and prefetch. -/
def submitRatingCore (scr : Screen) (db : DB) (track : Track) (u : String)
    (stars : Int) (reviewText : Option String) (statsOut : StatsOutcome)
    (prefs : Option UserPreferences) (pick : Nat) (fetchOk : Bool) : SubmitResult :=
  if insertErrorFatal (insertRating db.user_ratings (newRatingRow track u stars reviewText)).2
  then { screen := draftScreen scr stars reviewText, db := db, alerted := true }
  else if 4 ≤ stars then
    { screen := revealScreen (draftScreen scr stars reviewText),
      db := dbAfter db track u stars reviewText statsOut, alerted := false }
  else
    { screen := showThankYouMessage (draftScreen scr stars reviewText)
        (dbAfter db track u stars reviewText statsOut) u prefs pick fetchOk,
      db := dbAfter db track u stars reviewText statsOut, alerted := false }

/-- The handler `submitRating`: returns immediately when there is no current track or no
signed-in user. -/
def submitRating (scr : Screen) (db : DB) (uid : Option String) (stars : Int)
    (reviewText : Option String) (statsOut : StatsOutcome)
    (prefs : Option UserPreferences) (pick : Nat) (fetchOk : Bool) : SubmitResult :=
  match scr.currentTrack, uid with
  | some track, some u =>
      submitRatingCore scr db track u stars reviewText statsOut prefs pick fetchOk
  | _, _ => { screen := scr, db := db, alerted := false }

/-- A second, unrated track for the witness databases. -/
def track2 : Track :=
  { id := "t10", title := "tune", artist := "y", audio_url := "v",
    genre := "Pop", mood := "Chill", duration := 90, spotify_streams := 100 }

/-- Two underground tracks, nothing rated yet. -/
def dbTwo : DB := { tracks := [demoTrack, track2], user_ratings := [], user_stats := [] }

/-- The pre-existing rating row of u1 on the demo track. -/
def ratedRow : RatingRow :=
  { track_id := "t9", rating := 3, review_text := none,
    profile_id := "u1", user_id := "u1" }

/-- A database in which u1 already rated the demo track. -/
def dbRated : DB :=
  { tracks := [demoTrack, track2], user_ratings := [ratedRow], user_stats := [] }

/-! ## Theorems -/

-- Membership in a candidate page implies the row filter holds.

theorem mem_primaryCandidates {tracks : List Track} {excludeIds : List String}
    {sessionMood : Option String} {prefs : Option UserPreferences} {t : Track}
    (h : t ∈ primaryCandidates tracks excludeIds sessionMood prefs) :
    primaryPred excludeIds sessionMood prefs t = true := by
  have h' := List.mem_of_mem_take h
  exact (List.mem_filter.mp h').2

theorem mem_fallbackCandidates {tracks : List Track} {excludeIds : List String} {t : Track}
    (h : t ∈ fallbackCandidates tracks excludeIds) :
    fallbackPred excludeIds t = true := by
  have h' := List.mem_of_mem_take h
  exact (List.mem_filter.mp h').2

/-- The primary row filter rejects every excluded id. -/
theorem primaryPred_excludes {excludeIds : List String} {sessionMood : Option String}
    {prefs : Option UserPreferences} {t : Track} (hmem : t.id ∈ excludeIds) :
    primaryPred excludeIds sessionMood prefs t = false := by
  have hlen : excludeIds.length > 0 := List.length_pos.mpr (List.ne_nil_of_mem hmem)
  have hcontains : excludeIds.contains t.id = true := List.elem_eq_true_of_mem hmem
  unfold primaryPred
  cases prefs <;> cases sessionMood <;>
    simp [hlen, hcontains, hmem]

/-- The fallback row filter rejects every excluded id. -/
theorem fallbackPred_excludes {excludeIds : List String} {t : Track}
    (hmem : t.id ∈ excludeIds) : fallbackPred excludeIds t = false := by
  have hcontains : excludeIds.contains t.id = true := List.elem_eq_true_of_mem hmem
  simp [fallbackPred, hcontains, hmem]

/-- Claim C1: For every user and every track already rated by that user
(i.e. every `user_ratings` row of that user), neither the
preference-constrained primary candidate query nor the fallback candidate
query of `loadNextTrack`, run over the user's exclusion list, can return a
track with that rated `track_id`. -/
theorem C1_rated_tracks_never_returned (db : DB) (uid : String) (r : RatingRow)
    (hr : r ∈ db.user_ratings) (hprof : r.profile_id = uid)
    (sessionMood : Option String) (prefs : Option UserPreferences) (t : Track)
    (hid : t.id = r.track_id) :
    t ∉ primaryCandidates db.tracks (ratedTrackIds db.user_ratings uid) sessionMood prefs ∧
    t ∉ fallbackCandidates db.tracks (ratedTrackIds db.user_ratings uid) := by
  have hmem : t.id ∈ ratedTrackIds db.user_ratings uid := by
    unfold ratedTrackIds
    refine List.mem_map.mpr ⟨r, ?_, hid.symm⟩
    exact List.mem_filter.mpr ⟨hr, by simp [hprof]⟩
  constructor
  · intro hc
    have := mem_primaryCandidates hc
    rw [primaryPred_excludes hmem] at this
    exact Bool.false_ne_true this
  · intro hc
    have := mem_fallbackCandidates hc
    rw [fallbackPred_excludes hmem] at this
    exact Bool.false_ne_true this

/-- Witness for C1 at a concrete database. -/
theorem C1_rated_tracks_never_returned_witness :
    let t : Track :=
      { id := "t1", title := "a", artist := "b", audio_url := "u"
        genre := "Jazz", mood := "Chill", duration := 120, spotify_streams := 10 }
    let r : RatingRow :=
      { track_id := "t1", rating := 5, review_text := none
        profile_id := "u1", user_id := "u1" }
    let db : DB := { tracks := [t], user_ratings := [r], user_stats := [] }
    t ∉ primaryCandidates db.tracks (ratedTrackIds db.user_ratings "u1") none none ∧
    t ∉ fallbackCandidates db.tracks (ratedTrackIds db.user_ratings "u1") := by
  intro t r db
  exact C1_rated_tracks_never_returned db "u1" r (by simp [db]) rfl none none t rfl

/-- Claim C8: With preferences `preferred_genres = ["Jazz"]`,
`preferred_moods = ["Chill"]`, `min_duration = 60`, `max_duration = 300` and
no session mood, the primary query filter holds exactly when the track's
genre is Jazz, its mood is Chill, its duration lies in `[60, 300]`, its
stream count is below 5000, and its id is not among the rated ids; hence
every returned candidate satisfies all of these constraints. -/
theorem C8_scenario_query_shape :
    (∀ (excludeIds : List String) (t : Track),
       primaryPred excludeIds none (some prefsJazzChill) t = true ↔
         (t.genre = "Jazz" ∧ t.mood = "Chill" ∧ 60 ≤ t.duration ∧ t.duration ≤ 300 ∧
          t.spotify_streams < 5000 ∧ t.id ∉ excludeIds)) ∧
    (∀ (tracks : List Track) (excludeIds : List String) (t : Track),
       t ∈ primaryCandidates tracks excludeIds none (some prefsJazzChill) →
         (t.genre = "Jazz" ∧ t.mood = "Chill" ∧ 60 ≤ t.duration ∧ t.duration ≤ 300 ∧
          t.spotify_streams < 5000 ∧ t.id ∉ excludeIds)) := by
  have hiff : ∀ (excludeIds : List String) (t : Track),
      primaryPred excludeIds none (some prefsJazzChill) t = true ↔
        (t.genre = "Jazz" ∧ t.mood = "Chill" ∧ 60 ≤ t.duration ∧ t.duration ≤ 300 ∧
         t.spotify_streams < 5000 ∧ t.id ∉ excludeIds) := by
    intro excludeIds t
    unfold primaryPred prefsJazzChill undergroundCeiling
    rcases hx : excludeIds with _ | ⟨e, es⟩
    · simp [List.contains]
      tauto
    · simp
      tauto
  refine ⟨hiff, ?_⟩
  intro tracks excludeIds t ht
  exact (hiff excludeIds t).mp (mem_primaryCandidates ht)

/-- Witness for C8: a concrete Jazz/Chill track inside the bounds is returned
and indeed satisfies every constraint. -/
theorem C8_scenario_query_shape_witness :
    let t : Track :=
      { id := "t2", title := "a", artist := "b", audio_url := "u"
        genre := "Jazz", mood := "Chill", duration := 120, spotify_streams := 10 }
    t.genre = "Jazz" ∧ t.mood = "Chill" ∧ 60 ≤ t.duration ∧ t.duration ≤ 300 ∧
      t.spotify_streams < 5000 ∧ t.id ∉ ["t1"] := by
  intro t
  exact C8_scenario_query_shape.2 [t] ["t1"] t (by decide)

theorem progressEffect_state_of_not_playing {s : Screen}
    (h : s.state ≠ DiscoverState.playing) : (progressEffect s).state = s.state := by
  unfold progressEffect
  rw [if_neg]
  intro hc
  exact h hc.2.2

theorem ratingEntryCount_of_rating {s : Screen} (h : s.state = DiscoverState.rating) :
    ∀ es : List (ℚ × ℚ), ratingEntryCount s es = 0 := by
  intro es
  induction es generalizing s with
  | nil => rfl
  | cons e es ih =>
      unfold ratingEntryCount
      have hstep : (applyProgress s e).state = DiscoverState.rating := by
        have : ({ s with position := e.1, duration := e.2 } : Screen).state ≠
            DiscoverState.playing := by
          simp [h]
        unfold applyProgress
        rw [progressEffect_state_of_not_playing this]
        exact h
      rw [if_neg (by simp [h]), ih hstep]

/-- Claim C2: (a) The progress-monitor effect moves the screen into the
`rating` state exactly when the screen is in `playing`, the reported duration
is positive, and the progress ratio `position / duration` has reached the
configured threshold (for any positive threshold, in particular the
configured `0.01`). (b) Along any sequence of playback progress ticks — i.e.
within one track instance, since only a track load leaves `rating` for
`playing` again — the playing-to-rating transition fires at most once. -/
theorem C2_rating_trigger :
    (∀ s : Screen, 0 < s.ratingThreshold →
       (entersRating s ↔
         s.state = DiscoverState.playing ∧ 0 < s.duration ∧
           s.ratingThreshold ≤ s.position / s.duration)) ∧
    (∀ (s : Screen) (es : List (ℚ × ℚ)), ratingEntryCount s es ≤ 1) := by
  constructor
  · intro s hpos
    constructor
    · rintro ⟨hne, hrat⟩
      unfold progressEffect at hrat
      by_cases hguard : 0 < s.duration ∧ 0 < s.position ∧ s.state = DiscoverState.playing
      · rw [if_pos hguard] at hrat
        by_cases hth : s.ratingThreshold ≤ s.position / s.duration
        · exact ⟨hguard.2.2, hguard.1, hth⟩
        · rw [if_neg hth] at hrat
          exact absurd hrat hne
      · rw [if_neg hguard] at hrat
        exact absurd hrat hne
    · rintro ⟨hplay, hdur, hth⟩
      have hratio : 0 < s.position / s.duration := lt_of_lt_of_le hpos hth
      have hposn : 0 < s.position := by
        rcases div_pos_iff.mp hratio with ⟨h1, _⟩ | ⟨_, h2⟩
        · exact h1
        · exact absurd hdur (not_lt.mpr h2.le)
      refine ⟨by simp [hplay], ?_⟩
      unfold progressEffect
      rw [if_pos ⟨hdur, hposn, hplay⟩, if_pos hth]
  · intro s es
    induction es generalizing s with
    | nil => exact Nat.zero_le 1
    | cons e es ih =>
        unfold ratingEntryCount
        by_cases hfire : s.state ≠ DiscoverState.rating ∧
            (applyProgress s e).state = DiscoverState.rating
        · rw [if_pos hfire, ratingEntryCount_of_rating hfire.2 es]
        · rw [if_neg hfire]
          simpa using ih (applyProgress s e)

/-- Witness for C2 at the configured threshold `0.01` on a concrete screen:
the equivalence applies and the screen does enter `rating`. -/
theorem C2_rating_trigger_witness :
    entersRating demoPlayingScreen ↔
      demoPlayingScreen.state = DiscoverState.playing ∧ 0 < demoPlayingScreen.duration ∧
        demoPlayingScreen.ratingThreshold ≤
          demoPlayingScreen.position / demoPlayingScreen.duration :=
  C2_rating_trigger.1 demoPlayingScreen (by norm_num [demoPlayingScreen, ratingThresholdValue])

/-- Claim C4, counterexample: At concrete inputs the claim fails: (i) when both
the primary and the fallback query return zero rows, `loadNextTrack`
produces exactly the same screen as when the candidate fetch itself fails —
the generic retryable error, not a distinct `no tracks available` report;
(ii) when the primary query is empty but the fallback is non-empty, no
`no tracks matching preferences` report is made at all — the screen just
enters `playing` on a fallback track. -/
theorem C4_no_distinct_no_tracks_report :
    (loadNextTrack demoPlayingScreen emptyDB "u1" false none none 0 true =
       loadNextTrack demoPlayingScreen demoDB "u1" false none none 0 false) ∧
    (loadNextTrack demoPlayingScreen emptyDB "u1" false none none 0 true).error =
       some loadFailMsg ∧
    (loadNextTrack demoPlayingScreen demoDB "u1" false none (some prefsJazzChill) 0 true).state =
       DiscoverState.playing ∧
    (loadNextTrack demoPlayingScreen demoDB "u1" false none (some prefsJazzChill) 0 true).error =
       none := by
  refine ⟨by rfl, by rfl, ?_, ?_⟩ <;> rfl

/-- Claim C4, amended: When the primary query returns zero rows: if the
fallback also returns zero rows, `loadNextTrack` throws internally, catches,
and reports the same generic retryable message used for any fetch failure
(`Failed to load track. Please try again.`) — indistinguishable from a
transient failure and with no distinct no-tracks state; if the fallback is
non-empty, a fallback track is silently selected and the session enters
`playing` with no report. -/
theorem C4_both_empty_generic_error (scr : Screen) (db : DB) (uid : String)
    (sessionMood : Option String) (prefs : Option UserPreferences) (pick : Nat)
    (h1 : primaryCandidates db.tracks (ratedTrackIds db.user_ratings uid) sessionMood prefs = []) :
    (fallbackCandidates db.tracks (ratedTrackIds db.user_ratings uid) = [] →
       loadNextTrack scr db uid false sessionMood prefs pick true =
         loadNextTrack scr db uid false sessionMood prefs pick false ∧
       (loadNextTrack scr db uid false sessionMood prefs pick true).error =
         some loadFailMsg) ∧
    (fallbackCandidates db.tracks (ratedTrackIds db.user_ratings uid) ≠ [] →
       (loadNextTrack scr db uid false sessionMood prefs pick true).state =
           DiscoverState.playing ∧
       (loadNextTrack scr db uid false sessionMood prefs pick true).error = none) := by
  constructor
  · intro h2
    have hout : computeLoad db uid sessionMood prefs pick true = LoadOutcome.noTracks := by
      unfold computeLoad
      rw [if_neg (by simp)]
      rw [dif_pos (by simp [h1]), dif_pos (by simp [h2])]
    have hout' : computeLoad db uid sessionMood prefs pick false = LoadOutcome.fetchError := by
      unfold computeLoad
      rw [if_pos rfl]
    unfold loadNextTrack
    rw [hout, hout']
    exact ⟨rfl, rfl⟩
  · intro h2
    have hlen : (fallbackCandidates db.tracks (ratedTrackIds db.user_ratings uid)).length ≠ 0 := by
      simpa [List.length_eq_zero] using h2
    have hout : ∃ t, computeLoad db uid sessionMood prefs pick true = LoadOutcome.picked t := by
      unfold computeLoad
      rw [if_neg (by simp)]
      rw [dif_pos (by simp [h1]), dif_neg hlen]
      exact ⟨_, rfl⟩
    obtain ⟨t, ht⟩ := hout
    unfold loadNextTrack
    rw [ht]
    exact ⟨rfl, rfl⟩

/-- Witness for the amended C4 at concrete inputs (both branches hit). -/
theorem C4_both_empty_generic_error_witness :
    (loadNextTrack demoPlayingScreen emptyDB "u1" false none none 0 true =
       loadNextTrack demoPlayingScreen emptyDB "u1" false none none 0 false ∧
     (loadNextTrack demoPlayingScreen emptyDB "u1" false none none 0 true).error =
       some loadFailMsg) ∧
    ((loadNextTrack demoPlayingScreen demoDB "u1" false none (some prefsJazzChill) 0 true).state =
       DiscoverState.playing ∧
     (loadNextTrack demoPlayingScreen demoDB "u1" false none (some prefsJazzChill) 0 true).error =
       none) :=
  ⟨(C4_both_empty_generic_error demoPlayingScreen emptyDB "u1" none none 0 (by rfl)).1 (by rfl),
   (C4_both_empty_generic_error demoPlayingScreen demoDB "u1" none (some prefsJazzChill) 0
      (by rfl)).2 (by simp [fallbackCandidates, fallbackPred, demoDB, demoTrack,
        ratedTrackIds, undergroundCeiling, queryLimit])⟩

/-- Claim C6: A background prefetch completing after `handleNewSession` is
applied to the freshly reset screen with no staleness guard: the reset
leaves `mood_selection` with no current track, but the arriving prefetch
result sets the prefetched track as current and moves the state to
`playing`, overwriting the reset — the code contradicts the required
discard. -/
theorem C6_stale_prefetch_overwrites_reset :
    (handleNewSession demoPlayingScreen).state = DiscoverState.mood_selection ∧
    (handleNewSession demoPlayingScreen).currentTrack = none ∧
    (applyLoadOutcome (handleNewSession demoPlayingScreen) true
        (computeLoad demoDB "u1" none none 0 true)).state = DiscoverState.playing ∧
    (applyLoadOutcome (handleNewSession demoPlayingScreen) true
        (computeLoad demoDB "u1" none none 0 true)).currentTrack = some demoTrack := by
  refine ⟨rfl, rfl, ?_, ?_⟩ <;> rfl

/-- Claim C7, counterexample: Entering `full_listening` via
`handleContinueListening` sets `canSkip` to `true`, so invoking `skipTrack`
there is not a no-op: at a concrete revealed screen, after continuing to
full listening the skip acts and loads the next track, leaving
`full_listening` for `playing`. -/
theorem C7_skip_acts_in_full_listening :
    (handleContinueListening demoRevealedScreen).state = DiscoverState.full_listening ∧
    (skipTrack (handleContinueListening demoRevealedScreen) demoDB "u1" none 0 true).2 = true ∧
    (skipTrack (handleContinueListening demoRevealedScreen) demoDB "u1" none 0 true).1.state =
      DiscoverState.playing := by
  refine ⟨rfl, ?_, ?_⟩ <;> rfl

/-- Claim C7, amended: `handleContinueListening` enters `full_listening` with
`canSkip` set to `true`, so skipping stays enabled there; `skipTrack` is a
no-op exactly when `canSkip` is `false` (which nothing in the
full-listening path establishes). -/
theorem C7_continue_listening_enables_skip (scr : Screen) :
    (handleContinueListening scr).state = DiscoverState.full_listening ∧
    (handleContinueListening scr).canSkip = true ∧
    (∀ (db : DB) (uid : String) (prefs : Option UserPreferences) (pick : Nat) (fetchOk : Bool),
       scr.canSkip = false →
         skipTrack scr db uid prefs pick fetchOk = (scr, false)) ∧
    (∀ (db : DB) (uid : String) (prefs : Option UserPreferences) (pick : Nat) (fetchOk : Bool),
       scr.canSkip = true →
         (skipTrack scr db uid prefs pick fetchOk).2 = true) := by
  refine ⟨rfl, rfl, ?_, ?_⟩
  · intro db uid prefs pick fetchOk h
    unfold skipTrack
    rw [if_pos h]
  · intro db uid prefs pick fetchOk h
    unfold skipTrack
    rw [if_neg (by simp [h])]

/-- Witness for the amended C7 at a concrete screen with skipping disabled
and another with skipping enabled. -/
theorem C7_continue_listening_enables_skip_witness :
    (skipTrack { demoRevealedScreen with canSkip := false } demoDB "u1" none 0 true =
       ({ demoRevealedScreen with canSkip := false }, false)) ∧
    (skipTrack demoRevealedScreen demoDB "u1" none 0 true).2 = true :=
  ⟨(C7_continue_listening_enables_skip { demoRevealedScreen with canSkip := false }).2.2.1
      demoDB "u1" none 0 true rfl,
   (C7_continue_listening_enables_skip demoRevealedScreen).2.2.2
      demoDB "u1" none 0 true rfl⟩

theorem submitRating_eq_core {scr : Screen} {track : Track}
    (hcur : scr.currentTrack = some track) (db : DB) (u : String) (stars : Int)
    (reviewText : Option String) (statsOut : StatsOutcome)
    (prefs : Option UserPreferences) (pick : Nat) (fetchOk : Bool) :
    submitRating scr db (some u) stars reviewText statsOut prefs pick fetchOk =
      submitRatingCore scr db track u stars reviewText statsOut prefs pick fetchOk := by
  unfold submitRating
  rw [hcur]

/-- Our backend insert reports either no error or the duplicate code, so the
fatal-error guard of `submitRating` never fires. -/
theorem insertRating_not_fatal (rows : List RatingRow) (r : RatingRow) :
    insertErrorFatal (insertRating rows r).2 = false := by
  unfold insertRating
  by_cases h : rows.any (fun q => q.profile_id == r.profile_id && q.track_id == r.track_id)
  · rw [if_pos h]
    rfl
  · rw [if_neg h]
    rfl

/-- If the (user, track) pair is already present, the insert leaves the
table unchanged and reports `23505`. -/
theorem insertRating_dup {rows : List RatingRow} {r : RatingRow}
    (q : RatingRow) (hq : q ∈ rows) (hp : q.profile_id = r.profile_id)
    (ht : q.track_id = r.track_id) :
    insertRating rows r = (rows, some "23505") := by
  unfold insertRating
  rw [if_pos]
  exact List.any_eq_true.mpr ⟨q, hq, by simp [hp, ht]⟩

/-- After inserting the rating of (u, tid), tid is among u's rated ids —
fresh insert and tolerated duplicate alike. -/
theorem mem_ratedTrackIds_insert (rows : List RatingRow) (tid u : String)
    (stars : Int) (rev : Option String) :
    tid ∈ ratedTrackIds
      (insertRating rows
        { track_id := tid, rating := stars, review_text := rev,
          profile_id := u, user_id := u }).1 u := by
  unfold insertRating
  by_cases h : rows.any (fun q => q.profile_id == u && q.track_id == tid)
  · rw [if_pos (by simpa using h)]
    obtain ⟨q, hq, hcond⟩ := List.any_eq_true.mp h
    have hp : q.profile_id = u := by
      have := (Bool.and_eq_true _ _).mp hcond
      exact eq_of_beq this.1
    have htq : q.track_id = tid := by
      have := (Bool.and_eq_true _ _).mp hcond
      exact eq_of_beq this.2
    unfold ratedTrackIds
    exact List.mem_map.mpr ⟨q, List.mem_filter.mpr ⟨hq, by simp [hp]⟩, htq⟩
  · rw [if_neg (by simpa using h)]
    unfold ratedTrackIds
    refine List.mem_map.mpr ⟨_, List.mem_filter.mpr ⟨List.mem_append_right rows (List.mem_singleton_self _), by simp⟩, rfl⟩

/-- A successful fetch with a non-empty fallback page always picks a track
(no matter whether the primary page was empty). -/
theorem computeLoad_picked_of_fallback_nonempty (db : DB) (u : String)
    (sm : Option String) (prefs : Option UserPreferences) (pick : Nat)
    (h : fallbackCandidates db.tracks (ratedTrackIds db.user_ratings u) ≠ []) :
    ∃ t, computeLoad db u sm prefs pick true = LoadOutcome.picked t := by
  have hlen : (fallbackCandidates db.tracks (ratedTrackIds db.user_ratings u)).length ≠ 0 := by
    simpa [List.length_eq_zero] using h
  unfold computeLoad
  rw [if_neg (by simp)]
  by_cases h1 : (primaryCandidates db.tracks (ratedTrackIds db.user_ratings u) sm prefs).length = 0
  · rw [dif_pos h1, dif_neg hlen]
    exact ⟨_, rfl⟩
  · rw [dif_neg h1]
    exact ⟨_, rfl⟩

/-- Any track picked by the fetch computation avoids every rated id of the
user (it comes from the primary page or the fallback page, both of which
exclude the rated ids). -/
theorem computeLoad_picked_excludes (db : DB) (u : String) (sm : Option String)
    (prefs : Option UserPreferences) (pick : Nat) (fetchOk : Bool) {t : Track}
    (h : computeLoad db u sm prefs pick fetchOk = LoadOutcome.picked t)
    {x : String} (hx : x ∈ ratedTrackIds db.user_ratings u) : t.id ≠ x := by
  intro hid
  have hmem : t.id ∈ ratedTrackIds db.user_ratings u := hid ▸ hx
  unfold computeLoad at h
  by_cases hget : fetchOk = false
  · rw [if_pos hget] at h
    exact LoadOutcome.noConfusion h
  · rw [if_neg hget] at h
    by_cases h1 : (primaryCandidates db.tracks (ratedTrackIds db.user_ratings u) sm prefs).length = 0
    · rw [dif_pos h1] at h
      by_cases h2 : (fallbackCandidates db.tracks (ratedTrackIds db.user_ratings u)).length = 0
      · rw [dif_pos h2] at h
        exact LoadOutcome.noConfusion h
      · rw [dif_neg h2] at h
        have ht : t ∈ fallbackCandidates db.tracks (ratedTrackIds db.user_ratings u) := by
          have := LoadOutcome.picked.inj h
          rw [← this]
          exact List.get_mem _ _ _
        have := mem_fallbackCandidates ht
        rw [fallbackPred_excludes hmem] at this
        exact Bool.false_ne_true this
    · rw [dif_neg h1] at h
      have ht : t ∈ primaryCandidates db.tracks (ratedTrackIds db.user_ratings u) sm prefs := by
        have := LoadOutcome.picked.inj h
        rw [← this]
        exact List.get_mem _ _ _
      have := mem_primaryCandidates ht
      rw [primaryPred_excludes hmem] at this
      exact Bool.false_ne_true this

/-- Claim C3: For a submission on the current track: a score of at least 4
enters the `revealed` state with the track revealed; a score below 4 shows
the thank-you overlay and — whenever any unrated underground track remains
for the user — lands back in `playing` with a different (newly picked)
track as current. -/
theorem C3_reveal_or_next_track (scr : Screen) (db : DB) (u : String) (track : Track)
    (stars : Int) (reviewText : Option String) (statsOut : StatsOutcome)
    (prefs : Option UserPreferences) (pick : Nat)
    (hcur : scr.currentTrack = some track) :
    (4 ≤ stars →
       (submitRating scr db (some u) stars reviewText statsOut prefs pick true).screen.state =
           DiscoverState.revealed ∧
       (submitRating scr db (some u) stars reviewText statsOut prefs pick true).screen.trackRevealed =
           true) ∧
    (stars < 4 →
       fallbackCandidates db.tracks
           (ratedTrackIds
             (insertRating db.user_ratings
               { track_id := track.id, rating := stars, review_text := reviewText,
                 profile_id := u, user_id := u }).1 u) ≠ [] →
       (submitRating scr db (some u) stars reviewText statsOut prefs pick true).screen.showThankYou =
           true ∧
       (submitRating scr db (some u) stars reviewText statsOut prefs pick true).screen.state =
           DiscoverState.playing ∧
       ∃ t', (submitRating scr db (some u) stars reviewText statsOut prefs pick true).screen.currentTrack =
           some t' ∧ t' ≠ track) := by
  rw [submitRating_eq_core hcur]
  unfold submitRatingCore
  rw [insertRating_not_fatal, if_neg Bool.false_ne_true]
  constructor
  · intro h4
    rw [if_pos h4]
    exact ⟨rfl, rfl⟩
  · intro hlt hfb
    rw [if_neg (not_le.mpr hlt)]
    have hfb1 : fallbackCandidates (dbAfter db track u stars reviewText statsOut).tracks
        (ratedTrackIds (dbAfter db track u stars reviewText statsOut).user_ratings u) ≠ [] := hfb
    obtain ⟨t', ht'⟩ := computeLoad_picked_of_fallback_nonempty
      (dbAfter db track u stars reviewText statsOut) u
      (draftScreen scr stars reviewText).selectedSessionMood prefs pick hfb1
    have hne : t'.id ≠ track.id :=
      computeLoad_picked_excludes (dbAfter db track u stars reviewText statsOut) u
        (draftScreen scr stars reviewText).selectedSessionMood prefs pick true ht'
        (mem_ratedTrackIds_insert db.user_ratings track.id u stars reviewText)
    unfold showThankYouMessage loadNextTrack
    rw [ht']
    refine ⟨rfl, rfl, t', rfl, ?_⟩
    intro he
    exact hne (by rw [he])

/-- The thank-you overlay is visible after `showThankYouMessage`, whatever
the background load produced. -/
theorem showThankYouMessage_shows (scr : Screen) (db : DB) (u : String)
    (prefs : Option UserPreferences) (pick : Nat) (fetchOk : Bool) :
    (showThankYouMessage scr db u prefs pick fetchOk).showThankYou = true := by
  unfold showThankYouMessage loadNextTrack
  cases h : computeLoad db u scr.selectedSessionMood prefs pick fetchOk <;> rfl

/-- Witness for C3: rating 5 on the demo track reveals; rating 2 lands back
in `playing`. -/
theorem C3_reveal_or_next_track_witness :
    (submitRating demoRevealedScreen dbTwo (some "u1") 5 none StatsOutcome.ok
        none 0 true).screen.state = DiscoverState.revealed ∧
    (submitRating demoRevealedScreen dbTwo (some "u1") 2 none StatsOutcome.ok
        none 0 true).screen.state = DiscoverState.playing :=
  ⟨((C3_reveal_or_next_track demoRevealedScreen dbTwo "u1" demoTrack 5 none StatsOutcome.ok
      none 0 rfl).1 (by norm_num)).1,
   (((C3_reveal_or_next_track demoRevealedScreen dbTwo "u1" demoTrack 2 none StatsOutcome.ok
      none 0 rfl).2 (by norm_num)) (by decide)).2.1⟩

/-- Claim C5: Submitting a rating for a (user, track) pair already persisted is
idempotent: the backend reports the duplicate-key code `23505`, which
`submitRating` treats as success — no alert is shown, the `user_ratings`
table is unchanged (no second row), and the reveal/thank-you decision
proceeds exactly as for a fresh submission of the same score. -/
theorem C5_duplicate_rating_idempotent (scr : Screen) (db : DB) (u : String) (track : Track)
    (stars : Int) (reviewText : Option String) (statsOut : StatsOutcome)
    (prefs : Option UserPreferences) (pick : Nat) (fetchOk : Bool)
    (hcur : scr.currentTrack = some track)
    (r : RatingRow) (hr : r ∈ db.user_ratings) (hpu : r.profile_id = u)
    (hpt : r.track_id = track.id) :
    (submitRating scr db (some u) stars reviewText statsOut prefs pick fetchOk).alerted = false ∧
    (submitRating scr db (some u) stars reviewText statsOut prefs pick fetchOk).db.user_ratings =
      db.user_ratings ∧
    (4 ≤ stars →
      (submitRating scr db (some u) stars reviewText statsOut prefs pick fetchOk).screen.state =
          DiscoverState.revealed ∧
      (submitRating scr db (some u) stars reviewText statsOut prefs pick fetchOk).screen.trackRevealed =
          true) ∧
    (stars < 4 →
      (submitRating scr db (some u) stars reviewText statsOut prefs pick fetchOk).screen.showThankYou =
          true) := by
  rw [submitRating_eq_core hcur]
  unfold submitRatingCore
  rw [insertRating_not_fatal, if_neg Bool.false_ne_true]
  have hdup : insertRating db.user_ratings (newRatingRow track u stars reviewText) =
      (db.user_ratings, some "23505") :=
    insertRating_dup r hr (by simp [newRatingRow, hpu]) (by simp [newRatingRow, hpt])
  by_cases h4 : 4 ≤ stars
  · rw [if_pos h4]
    refine ⟨rfl, ?_, fun _ => ⟨rfl, rfl⟩, fun hlt => absurd h4 (not_le.mpr hlt)⟩
    show (dbAfter db track u stars reviewText statsOut).user_ratings = db.user_ratings
    unfold dbAfter
    rw [hdup]
  · rw [if_neg h4]
    refine ⟨rfl, ?_, fun hc => absurd hc h4, fun _ => ?_⟩
    · show (dbAfter db track u stars reviewText statsOut).user_ratings = db.user_ratings
      unfold dbAfter
      rw [hdup]
    · exact showThankYouMessage_shows _ _ _ _ _ _

/-- Witness for C5: re-rating the already-rated demo track alerts nobody and
adds no row. -/
theorem C5_duplicate_rating_idempotent_witness :
    (submitRating demoRevealedScreen dbRated (some "u1") 5 none StatsOutcome.ok
        none 0 true).alerted = false ∧
    (submitRating demoRevealedScreen dbRated (some "u1") 5 none StatsOutcome.ok
        none 0 true).db.user_ratings = dbRated.user_ratings :=
  ⟨(C5_duplicate_rating_idempotent demoRevealedScreen dbRated "u1" demoTrack 5 none
      StatsOutcome.ok none 0 true rfl ratedRow (by simp [dbRated]) rfl rfl).1,
   (C5_duplicate_rating_idempotent demoRevealedScreen dbRated "u1" demoTrack 5 none
      StatsOutcome.ok none 0 true rfl ratedRow (by simp [dbRated]) rfl rfl).2.1⟩

/-- The fetch computation never reads `user_stats`. -/
theorem computeLoad_user_stats_irrel (tr : List Track) (ra : List RatingRow)
    (s1 s2 : List StatsRow) (u : String) (sm : Option String)
    (prefs : Option UserPreferences) (pick : Nat) (f : Bool) :
    computeLoad { tracks := tr, user_ratings := ra, user_stats := s1 } u sm prefs pick f =
      computeLoad { tracks := tr, user_ratings := ra, user_stats := s2 } u sm prefs pick f := rfl

/-- The thank-you/prefetch path never reads `user_stats` either. -/
theorem showThankYouMessage_stats_irrel (scr : Screen) (tr : List Track) (ra : List RatingRow)
    (s1 s2 : List StatsRow) (u : String) (prefs : Option UserPreferences) (pick : Nat) (f : Bool) :
    showThankYouMessage scr { tracks := tr, user_ratings := ra, user_stats := s1 } u prefs pick f =
      showThankYouMessage scr { tracks := tr, user_ratings := ra, user_stats := s2 } u prefs pick f := by
  unfold showThankYouMessage loadNextTrack
  rw [computeLoad_user_stats_irrel tr ra s1 s2]

/-- Claim C9: A failing `user_stats` upsert changes nothing the user can see:
the resulting screen, the alert flag, and the persisted ratings are
identical to a submission whose stats upsert succeeds — the failure is only
logged, the rating is still persisted, and the reveal/transition decision
is unchanged. -/
theorem C9_stats_failure_only_logged (scr : Screen) (db : DB) (uid : Option String)
    (stars : Int) (reviewText : Option String) (prefs : Option UserPreferences)
    (pick : Nat) (fetchOk : Bool) :
    (submitRating scr db uid stars reviewText StatsOutcome.failed prefs pick fetchOk).screen =
      (submitRating scr db uid stars reviewText StatsOutcome.ok prefs pick fetchOk).screen ∧
    (submitRating scr db uid stars reviewText StatsOutcome.failed prefs pick fetchOk).alerted =
      (submitRating scr db uid stars reviewText StatsOutcome.ok prefs pick fetchOk).alerted ∧
    (submitRating scr db uid stars reviewText StatsOutcome.failed prefs pick fetchOk).db.user_ratings =
      (submitRating scr db uid stars reviewText StatsOutcome.ok prefs pick fetchOk).db.user_ratings := by
  unfold submitRating
  cases hc : scr.currentTrack with
  | none => exact ⟨rfl, rfl, rfl⟩
  | some track =>
      cases uid with
      | none => exact ⟨rfl, rfl, rfl⟩
      | some u =>
          unfold submitRatingCore
          simp only [insertRating_not_fatal, Bool.false_eq_true, if_false]
          by_cases h4 : 4 ≤ stars
          · simp only [if_pos h4]
            exact ⟨trivial, trivial, rfl⟩
          · simp only [if_neg h4]
            refine ⟨?_, trivial, ?_⟩
            · unfold dbAfter
              exact showThankYouMessage_stats_irrel _ _ _ _ _ _ _ _ _
            · rfl

/-- In the conflict branch of the upsert, the first row keyed by `u` has
been replaced by the fresh row, so the keyed lookup finds the fresh row. -/
theorem find_map_upsert (u : String) :
    ∀ rows : List StatsRow, rows.any (fun r => r.user_id == u) = true →
      (rows.map (fun r =>
          if r.user_id == u
          then ({ profile_id := u, user_id := u, total_tracks_rated := 1 } : StatsRow)
          else r)).find? (fun r => r.user_id == u) =
        some { profile_id := u, user_id := u, total_tracks_rated := 1 }
  | [], h => by simp at h
  | r :: rs, h => by
      by_cases hr : (r.user_id == u) = true
      · rw [List.map_cons, if_pos hr]
        simp [List.find?]
      · rw [List.map_cons, if_neg hr]
        have h' : rs.any (fun r => r.user_id == u) = true := by
          simpa [List.any_cons, hr] using h
        simp only [List.find?, hr, cond_false]
        exact find_map_upsert u rs h'

/-- In the no-conflict branch, no existing row matches the key, so the
lookup reaches the appended fresh row. -/
theorem find_append_upsert (u : String) :
    ∀ rows : List StatsRow, rows.any (fun r => r.user_id == u) = false →
      (rows ++ [({ profile_id := u, user_id := u, total_tracks_rated := 1 } : StatsRow)]).find?
          (fun r => r.user_id == u) =
        some { profile_id := u, user_id := u, total_tracks_rated := 1 }
  | [], _ => by simp [List.find?]
  | r :: rs, h => by
      have h2 := h
      rw [List.any_cons, Bool.or_eq_false_iff] at h2
      rw [List.cons_append]
      simp only [List.find?, h2.1, cond_false]
      exact find_append_upsert u rs h2.2

/-- The `user_stats` upsert always leaves `total_tracks_rated = 1` for the
written user, replacing whatever value was there before. -/
theorem lookupStats_upsert (rows : List StatsRow) (u : String) :
    lookupStats (upsertStats rows u) u = some 1 := by
  unfold lookupStats upsertStats
  by_cases h : rows.any (fun r => r.user_id == u) = true
  · rw [if_pos h, find_map_upsert u rows h]
    rfl
  · rw [if_neg h, find_append_upsert u rows (by simpa using h)]
    rfl

/-- Claim C10: The stats upsert of every successful submission writes the
constant `total_tracks_rated: 1` keyed on `user_id`, overwriting rather
than incrementing: for any prior stats table the persisted value afterwards
is 1, and hence after any number of submissions it is still 1. -/
theorem C10_stats_overwritten_to_one (scr : Screen) (db : DB) (u : String) (track : Track)
    (stars : Int) (reviewText : Option String) (prefs : Option UserPreferences)
    (pick : Nat) (fetchOk : Bool) (hcur : scr.currentTrack = some track) :
    (∀ rows : List StatsRow, lookupStats (upsertStats rows u) u = some 1) ∧
    lookupStats
      ((submitRating scr db (some u) stars reviewText StatsOutcome.ok prefs pick fetchOk).db.user_stats)
      u = some 1 := by
  refine ⟨fun rows => lookupStats_upsert rows u, ?_⟩
  rw [submitRating_eq_core hcur]
  unfold submitRatingCore
  rw [insertRating_not_fatal, if_neg Bool.false_ne_true]
  by_cases h4 : 4 ≤ stars
  · rw [if_pos h4]
    exact lookupStats_upsert db.user_stats u
  · rw [if_neg h4]
    exact lookupStats_upsert db.user_stats u

/-- Witness for C10: after u1 rates the demo track in a database whose
stats row already says 57, the persisted count is 1. -/
theorem C10_stats_overwritten_to_one_witness :
    lookupStats
      ((submitRating demoRevealedScreen
          { tracks := [demoTrack, track2], user_ratings := [],
            user_stats := [{ profile_id := "u1", user_id := "u1", total_tracks_rated := 57 }] }
          (some "u1") 5 none StatsOutcome.ok none 0 true).db.user_stats)
      "u1" = some 1 :=
  (C10_stats_overwritten_to_one demoRevealedScreen
    { tracks := [demoTrack, track2], user_ratings := [],
      user_stats := [{ profile_id := "u1", user_id := "u1", total_tracks_rated := 57 }] }
    "u1" demoTrack 5 none none 0 true rfl).2
